import Mathlib

/-!
Verification of the flight-operations dashboard's aggregation and
recommendation pipeline (`pages/*/visuals.py`): shallow embedding of the
data-transformation routines as executable Lean definitions, followed by
theorems settling the specification's claims about them.
-/

/-- A row of the flight-records table.  Delay columns are floating-point
columns in the source and may be missing (NaN); they are embedded as
`Option Int` (minutes), `none` standing for a missing value. -/
structure FlightRecord where
  year : Nat
  month : Nat
  day : Nat
  origin : String
  dest : String
  airlineId : Nat
  airlineName : String
  depDelay : Option Int
  arrDelay : Option Int
  weatherDelay : Option Int
deriving DecidableEq

/-- Select the records of one calendar period, as in
`df[(df["FL_DATE"].dt.year == y) & (df["FL_DATE"].dt.month == m)]`. -/
def periodFilter (y m : Nat) (df : List FlightRecord) : List FlightRecord :=
  df.filter (fun r => r.year = y ∧ r.month = m)

/-- `df.groupby(key).size()`: one `(key value, row count)` pair per distinct
key value.  pandas emits groups sorted by key; every use in the source either
re-sorts by count or is order-insensitive, so the embedding lists groups in
`dedup` order. -/
def groupCounts (key : FlightRecord → String) (df : List FlightRecord) :
    List (String × Nat) :=
  ((df.map key).dedup).map (fun k => (k, (df.filter (fun r => key r = k)).length))

/-- `sort_values("count", ascending=False)`: sort group rows by count
descending (the source's quicksort leaves the order of tied rows
unspecified; insertion sort is one valid realisation). -/
def sortByCountDesc (l : List (String × Nat)) : List (String × Nat) :=
  List.insertionSort (fun a b => b.2 ≤ a.2) l

/-- `_render_busiest_airports` lines 162-169: per-origin-airport flight
counts, before the `head(10)` truncation. -/
def airportFlightCounts (df : List FlightRecord) : List (String × Nat) :=
  groupCounts (fun r => r.origin) df

/-- The top-10 rows actually displayed by `_render_busiest_airports`. -/
def busiestAirports (df : List FlightRecord) : List (String × Nat) :=
  (sortByCountDesc (airportFlightCounts df)).take 10

/-- `_calculate_period_metrics`: `(total, delayed, on-time)` counts for one
period.  `DEP_DELAY > 0` and `DEP_DELAY <= 0` are pandas comparisons, both
false on a missing value. -/
def periodMetrics (dfp : List FlightRecord) : Nat × Nat × Nat :=
  (dfp.length,
   dfp.countP (fun r => match r.depDelay with
     | some d => decide (0 < d)
     | none => false),
   dfp.countP (fun r => match r.depDelay with
     | some d => decide (d ≤ 0)
     | none => false))

/-- `_build_performance_waterfall_data`: combined on-time/delayed/total
waterfall inputs over the two canonical periods, `none` when unavailable. -/
def waterfallData (df : List FlightRecord) :
    Option (List String × List Int × List String) :=
  let aug := periodFilter 2018 8 df
  let jan := periodFilter 2020 1 df
  if aug.isEmpty && jan.isEmpty then none
  else
    let frames := (if aug.isEmpty then [] else [periodMetrics aug]) ++
      (if jan.isEmpty then [] else [periodMetrics jan])
    let onTimeTot := (frames.map (fun t => t.2.2)).sum
    let delayedTot := (frames.map (fun t => t.2.1)).sum
    let totalTot := (frames.map (fun t => t.1)).sum
    if totalTot = 0 then none
    else some (["On Time/Early Flights", "Delayed Flights", "Total Flights"],
      [(onTimeTot : Int), (delayedTot : Int), (totalTot : Int)],
      ["relative", "relative", "total"])

/-- `fillna(0)` on the two delay columns, as done at the top of
`create_delay_map` before partitioning. -/
def delayMapPrep (df : List FlightRecord) : List FlightRecord :=
  df.map (fun r =>
    { r with weatherDelay := some (r.weatherDelay.getD 0),
             arrDelay := some (r.arrDelay.getD 0) })

/-- The weather-caused partition of the delay map:
`df[df["WEATHER_DELAY"] > 0]` after the fill. -/
def weatherPart (df : List FlightRecord) : List FlightRecord :=
  (delayMapPrep df).filter (fun r => 0 < r.weatherDelay.getD 0)

/-- The other-caused partition of the delay map:
`df[(df["ARR_DELAY"] > 0) & (df["WEATHER_DELAY"] == 0)]` after the fill. -/
def otherPart (df : List FlightRecord) : List FlightRecord :=
  (delayMapPrep df).filter
    (fun r => 0 < r.arrDelay.getD 0 ∧ r.weatherDelay.getD 0 = 0)

/-- Day count since 1970-01-01 for a civil date (Hinnant's algorithm),
embedding the date arithmetic behind pandas datetime accessors. -/
def daysFromCivil (y m d : Nat) : Int :=
  let yi : Int := if m ≤ 2 then (y : Int) - 1 else (y : Int)
  let era : Int := yi.fdiv 400
  let yoe : Int := yi - era * 400
  let mp : Int := ((m : Int) + 9) % 12
  let doy : Int := (153 * mp + 2) / 5 + (d : Int) - 1
  let doe : Int := yoe * 365 + yoe / 4 - yoe / 100 + doy
  era * 146097 + doe - 719468

/-- `FL_DATE.dt.to_period("W")`: the weekly bucket of a record.  pandas "W"
periods end on Sunday, so two dates share a bucket exactly when they fall in
the same Monday-to-Sunday window; 1970-01-01 (day 0) is a Thursday, hence
the +3 shift aligns bucket boundaries with Mondays. -/
def weekBucket (r : FlightRecord) : Int :=
  (daysFromCivil r.year r.month r.day + 3).fdiv 7

/-- Round to the nearest integer, halves to the even neighbour, as numpy
does inside `Series.round`. -/
def roundHalfEven (q : Rat) : Int :=
  if q - (⌊q⌋ : Rat) < 1 / 2 then ⌊q⌋
  else if 1 / 2 < q - (⌊q⌋ : Rat) then ⌊q⌋ + 1
  else if ⌊q⌋ % 2 = 0 then ⌊q⌋ else ⌊q⌋ + 1

/-- `Series.round(1)`: round to one decimal place. -/
def round1 (q : Rat) : Rat := (roundHalfEven (q * 10) : Rat) / 10

/-- One row of the intermediate `grouped` frame of
`_get_route_recommendations`, before the final column selection.
`avgArrDelay` is `none` when every arrival delay in the group is missing
(pandas mean of an all-NaN series is NaN). -/
structure AirlineStats where
  airlineId : Nat
  airlineName : String
  flights : Nat
  avgArrDelay : Option Rat
  onTimeRate : Rat
  weeksWithFlights : Nat
  flightsPerWeek : Rat
  onTimePct : Rat
deriving DecidableEq

/-- `ARR_DELAY <= 0` as pandas evaluates it per record: false when the
value is missing. -/
def onTimeP (r : FlightRecord) : Bool :=
  match r.arrDelay with
  | some d => decide (d ≤ 0)
  | none => false

/-- The arrival delays of a group that are actually present. -/
def presentArrDelays (grp : List FlightRecord) : List Int :=
  grp.filterMap (fun r => r.arrDelay)

/-- `("ARR_DELAY", "mean")`: pandas skips missing values in a mean and
returns NaN (`none`) for an all-missing group. -/
def meanArrDelay (grp : List FlightRecord) : Option Rat :=
  if (presentArrDelays grp).isEmpty then none
  else some (((presentArrDelays grp).sum : Rat) / ((presentArrDelays grp).length : Rat))

/-- `df[(df["ORIGIN_AIRPORT"] == origin) & (df["DEST_AIRPORT"] == destination)]`. -/
def routeFilter (df : List FlightRecord) (origin dest : String) : List FlightRecord :=
  df.filter (fun r => r.origin = origin ∧ r.dest = dest)

/-- The distinct `(AIRLINE_ID, Airline_Name)` grouping keys of the route. -/
def airlineKeys (routeDf : List FlightRecord) : List (Nat × String) :=
  (routeDf.map (fun r => (r.airlineId, r.airlineName))).dedup

/-- `max(route_df["YearWeek"].nunique(), 1)`. -/
def weeksObservedOf (routeDf : List FlightRecord) : Nat :=
  max ((routeDf.map weekBucket).dedup).length 1

/-- One aggregated row of `_get_route_recommendations` for the key `k`:
flight count, mean arrival delay, on-time rate, per-airline distinct-week
count clipped below at 1, flights per week and on-time percentage, both
rounded to one decimal. -/
def statsOf (routeDf : List FlightRecord) (k : Nat × String) : AirlineStats :=
  let grp := routeDf.filter (fun r => r.airlineId = k.1 ∧ r.airlineName = k.2)
  let rate : Rat := (grp.countP onTimeP : Rat) / (grp.length : Rat)
  let weeksA := max (((routeDf.filter
    (fun r => r.airlineId = k.1)).map weekBucket).dedup).length 1
  { airlineId := k.1
    airlineName := k.2
    flights := grp.length
    avgArrDelay := meanArrDelay grp
    onTimeRate := rate
    weeksWithFlights := weeksA
    flightsPerWeek := round1 ((grp.length : Rat) / (weeksA : Rat))
    onTimePct := round1 (rate * 100) }

/-- `sort_values(by=["AvgArrivalDelay", "OnTimeRate"], ascending=[True,
False])` compares rows by mean arrival delay ascending with missing means
last, ties broken by on-time rate descending (pandas assigns NaN the
largest rank in each sort column). -/
def recBefore (x y : AirlineStats) : Bool :=
  match x.avgArrDelay, y.avgArrDelay with
  | some a, some b =>
      decide (a < b) || (decide (a = b) && decide (y.onTimeRate ≤ x.onTimeRate))
  | some _, none => true
  | none, some _ => false
  | none, none => decide (y.onTimeRate ≤ x.onTimeRate)

/-- The sorted intermediate frame (the source's quicksort leaves fully tied
rows in unspecified order; insertion sort realises the same sort keys). -/
def rankRows (rows : List AirlineStats) : List AirlineStats :=
  List.insertionSort (fun x y => recBefore x y = true) rows

/-- A row of the returned recommendation table, after the final column
selection and renaming. -/
structure RecRow where
  airline : String
  flightsPerWeek : Rat
  onTimePct : Rat
  avgArrDelay : Option Rat
deriving DecidableEq

/-- The final column selection of `_get_route_recommendations`. -/
def displayRow (s : AirlineStats) : RecRow :=
  { airline := s.airlineName
    flightsPerWeek := s.flightsPerWeek
    onTimePct := s.onTimePct
    avgArrDelay := s.avgArrDelay }

/-- `_get_route_recommendations`: the recommendation table (top 3 rows),
the sample size and the observed-week count for a route. -/
def routeRecommendations (df : List FlightRecord) (origin dest : String) :
    List RecRow × Nat × Nat :=
  let routeDf := routeFilter df origin dest
  if routeDf.isEmpty then ([], 0, 0)
  else
    (((rankRows ((airlineKeys routeDf).map (statsOf routeDf))).take 3).map displayRow,
     routeDf.length,
     weeksObservedOf routeDf)

/-- `summarize` inside `_build_airline_sankey_data`: per-airline counts of a
period sorted by count descending, truncated to the top 10, with an
"Others" row appended whose count is the sum of the remaining rows. -/
def summarizePeriod (dfp : List FlightRecord) : List (String × Nat) :=
  let counts := sortByCountDesc (groupCounts (fun r => r.airlineName) dfp)
  counts.take 10 ++ [("Others", ((counts.drop 10).map (fun p => p.2)).sum)]

/-- `data_2018`: the August 2018 summary table. -/
def sankeyD18 (df : List FlightRecord) : List (String × Nat) :=
  summarizePeriod (periodFilter 2018 8 df)

/-- `data_2020`: the January 2020 summary table. -/
def sankeyD20 (df : List FlightRecord) : List (String × Nat) :=
  summarizePeriod (periodFilter 2020 1 df)

/-- `all_labels`: period-prefixed node labels, 2018 block first. -/
def sankeyLabels (df : List FlightRecord) : List String :=
  (sankeyD18 df).map (fun p => "2018: " ++ p.1) ++
    (sankeyD20 df).map (fun p => "2020: " ++ p.1)

/-- The index of the last occurrence of `a` in `l` (a Python dict built by
enumeration keeps the last index of a duplicated key; on duplicate-free
label lists this is the unique index). -/
def indexOfLast (l : List String) (a : String) : Nat :=
  l.length - 1 - l.reverse.indexOf a

/-- `node_to_id`: label-to-index mapping over `all_labels`. -/
def sankeyNodeId (df : List FlightRecord) (label : String) : Nat :=
  indexOfLast (sankeyLabels df) label

/-- `get_count`: the count of the first summary row with the given airline
name (the source indexes `iloc[0]`; lookups are only performed on present
names). -/
def getCount (d : List (String × Nat)) (a : String) : Nat :=
  ((d.find? (fun p => p.1 = a)).map (fun p => p.2)).getD 0

/-- `airlines_2018` / `airlines_2020`: summary names without "Others". -/
def topAirlines (d : List (String × Nat)) : List String :=
  (d.map (fun p => p.1)).filter (fun n => n ≠ "Others")

/-- One directed Sankey edge: node indices and a flight-count value. -/
structure Link where
  source : Nat
  target : Nat
  value : Int
deriving DecidableEq

/-- Total value leaving node `i` (used both by the balancing edge and by
the renderer's left-column totals). -/
def outgoingTotal (links : List Link) (i : Nat) : Int :=
  ((links.filter (fun l => l.source = i)).map (fun l => l.value)).sum

/-- Total value entering node `i` (the renderer's right-column totals). -/
def incomingTotal (links : List Link) (i : Nat) : Int :=
  ((links.filter (fun l => l.target = i)).map (fun l => l.value)).sum

/-- The first loop of `_build_airline_sankey_data`: for every airline in
both periods' top-10, a continuity edge carrying the 2020 count, plus an
overflow edge into 2020's "Others" when the 2018 count is larger. -/
def sankeySharedLinks (df : List FlightRecord) : List Link :=
  ((topAirlines (sankeyD18 df)).filter
      (fun a => a ∈ topAirlines (sankeyD20 df))).flatMap (fun a =>
    { source := sankeyNodeId df ("2018: " ++ a)
      target := sankeyNodeId df ("2020: " ++ a)
      value := (getCount (sankeyD20 df) a : Int) } ::
    (if getCount (sankeyD20 df) a < getCount (sankeyD18 df) a then
      [{ source := sankeyNodeId df ("2018: " ++ a)
         target := sankeyNodeId df "2020: Others"
         value := (getCount (sankeyD18 df) a : Int) - (getCount (sankeyD20 df) a : Int) }]
    else []))

/-- The second loop: edges from 2018's "Others" into airlines new to
2020's top-10, carrying their 2020 counts. -/
def sankeyNewLinks (df : List FlightRecord) : List Link :=
  ((topAirlines (sankeyD20 df)).filter
      (fun a => a ∉ topAirlines (sankeyD18 df))).map (fun a =>
    { source := sankeyNodeId df "2018: Others"
      target := sankeyNodeId df ("2020: " ++ a)
      value := (getCount (sankeyD20 df) a : Int) })

/-- The third loop: edges into 2020's "Others" from airlines that fell out
of the top-10, carrying their 2018 counts. -/
def sankeyDroppedLinks (df : List FlightRecord) : List Link :=
  ((topAirlines (sankeyD18 df)).filter
      (fun a => a ∉ topAirlines (sankeyD20 df))).map (fun a =>
    { source := sankeyNodeId df ("2018: " ++ a)
      target := sankeyNodeId df "2020: Others"
      value := (getCount (sankeyD18 df) a : Int) })

/-- `links` as accumulated after the three loops, before the balancing
edge. -/
def sankeyAcc (df : List FlightRecord) : List Link :=
  sankeySharedLinks df ++ sankeyNewLinks df ++ sankeyDroppedLinks df

/-- The full link list: the three loops followed by the balancing edge
from 2018's "Others" to 2020's "Others", clamped below at zero. -/
def sankeyLinks (df : List FlightRecord) : List Link :=
  sankeyAcc df ++ [{ source := sankeyNodeId df "2018: Others"
                     target := sankeyNodeId df "2020: Others"
                     value := max ((getCount (sankeyD20 df) "Others" : Int) -
                       outgoingTotal (sankeyAcc df) (sankeyNodeId df "2018: Others")) 0 }]

/-- `_build_airline_sankey_data`: `none` unless both canonical periods are
non-empty, otherwise node labels and links. -/
def buildAirlineSankeyData (df : List FlightRecord) :
    Option (List String × List String × List String × List Link) :=
  if (periodFilter 2018 8 df).isEmpty || (periodFilter 2020 1 df).isEmpty then none
  else some ((sankeyD18 df).map (fun p => "2018: " ++ p.1),
    (sankeyD20 df).map (fun p => "2020: " ++ p.1),
    sankeyLabels df, sankeyLinks df)

/-- `pat` occurs as a contiguous run at the head of `s`. -/
def headMatch : List Char → List Char → Bool
  | [], _ => true
  | _ :: _, [] => false
  | a :: as, b :: bs => a = b && headMatch as bs

/-- `pat` occurs as a contiguous run somewhere in `s`. -/
def hasSubSeq (pat : List Char) : List Char → Bool
  | [] => headMatch pat []
  | s :: rest => headMatch pat (s :: rest) || hasSubSeq pat rest

/-- Python's `pat in s` substring test. -/
def strContains (s pat : String) : Bool := hasSubSeq pat.data s.data

/-- `sort_indices` inside `_render_airline_sankey`: indices whose label
contains "Others" are split off and appended last; the rest are sorted by
total flow descending (Python's stable sort; insertion sort realises it). -/
def sortIndices (labels : List String) (totals : Nat → Int) (idxs : List Nat) :
    List Nat :=
  let others := idxs.filter (fun i => strContains (labels.getD i "") "Others")
  let regular := idxs.filter (fun i => i ∉ others)
  (List.insertionSort (fun i j => totals j ≤ totals i) regular) ++ others

/-- `left_sorted`: the rendered order of the 2018 node column. -/
def sankeyLeftOrder (df : List FlightRecord) : List Nat :=
  sortIndices (sankeyLabels df) (outgoingTotal (sankeyLinks df))
    (List.range (sankeyD18 df).length)

/-- `right_sorted`: the rendered order of the 2020 node column. -/
def sankeyRightOrder (df : List FlightRecord) : List Nat :=
  sortIndices (sankeyLabels df) (incomingTotal (sankeyLinks df))
    (List.range' (sankeyD18 df).length (sankeyD20 df).length)

/-- Shorthand constructor for concrete flight records. -/
def mkRec (y m d : Nat) (o de : String) (i : Nat) (n : String)
    (dep arr wx : Option Int) : FlightRecord :=
  ⟨y, m, d, o, de, i, n, dep, arr, wx⟩

/-- The three-flight JFK to LAX scenario of the specification: Airline A
with arrival delays -5 and -3, Airline B with arrival delay +10, all in
one week. -/
def scenarioDf : List FlightRecord :=
  [mkRec 2018 8 6 "JFK" "LAX" 1 "Airline A" (some 0) (some (-5)) none,
   mkRec 2018 8 6 "JFK" "LAX" 1 "Airline A" (some 0) (some (-3)) none,
   mkRec 2018 8 6 "JFK" "LAX" 2 "Airline B" (some 0) (some 10) none]

/-- A record whose departure delay is missing. -/
def recNoDep : FlightRecord :=
  mkRec 2018 8 1 "JFK" "LAX" 1 "Alpha Air" none (some 0) none

/-- An input whose only airline has 1 flight in August 2018 and 2 flights
in January 2020. -/
def cexDf1 : List FlightRecord :=
  [mkRec 2018 8 3 "JFK" "LAX" 1 "Alpha Air" (some 0) (some 0) none,
   mkRec 2020 1 7 "JFK" "LAX" 1 "Alpha Air" (some 0) (some 0) none,
   mkRec 2020 1 8 "JFK" "LAX" 1 "Alpha Air" (some 0) (some 0) none]

/-- Same growth pattern with a different carrier, for the conservation
claim. -/
def cexDf2 : List FlightRecord :=
  [mkRec 2018 8 3 "JFK" "LAX" 3 "Beta Air" (some 0) (some 0) none,
   mkRec 2020 1 7 "JFK" "LAX" 3 "Beta Air" (some 0) (some 0) none,
   mkRec 2020 1 8 "JFK" "LAX" 3 "Beta Air" (some 0) (some 0) none]

/-- A shrinking carrier: 2 flights in August 2018, 1 in January 2020. -/
def wdfShrink : List FlightRecord :=
  [mkRec 2018 8 3 "JFK" "LAX" 4 "Gamma Air" (some 0) (some 0) none,
   mkRec 2018 8 4 "JFK" "LAX" 4 "Gamma Air" (some 0) (some 0) none,
   mkRec 2020 1 7 "JFK" "LAX" 4 "Gamma Air" (some 0) (some 0) none]

/-- Two carriers in August 2018, only one remaining in January 2020. -/
def wdfDrop : List FlightRecord :=
  [mkRec 2018 8 3 "JFK" "LAX" 5 "Delta Air" (some 0) (some 0) none,
   mkRec 2018 8 4 "JFK" "LAX" 6 "Echo Air" (some 0) (some 0) none,
   mkRec 2020 1 7 "JFK" "LAX" 5 "Delta Air" (some 0) (some 0) none]

/-- A record set with no JFK to LAX records at all. -/
def wdfNoRoute : List FlightRecord :=
  [mkRec 2018 8 3 "JFK" "SFO" 1 "Alpha Air" (some 0) (some 0) none]

/-- A two-airport record set for the grouping-conservation witness. -/
def wdfAirports : List FlightRecord :=
  [mkRec 2018 8 3 "JFK" "LAX" 1 "Alpha Air" (some 0) (some 0) none,
   mkRec 2018 8 4 "LAX" "JFK" 1 "Alpha Air" (some 0) (some 0) none,
   mkRec 2018 8 5 "JFK" "SFO" 2 "Beta Air" (some 0) (some 0) none]

/-- A single-record route for the non-empty-route witness. -/
def wdfOneFlight : List FlightRecord :=
  [mkRec 2018 8 3 "JFK" "LAX" 1 "Alpha Air" (some 0) (some 5) none]

/-- The claim's "mean arrival delay ascending" order on reported means,
missing means (NaN) ordered last. -/
def avgLE : Option Rat → Option Rat → Prop
  | some a, some b => a ≤ b
  | none, some _ => False
  | _, none => True

theorem sum_map_add {α} (f g : α → Nat) (l : List α) :
    (l.map (fun a => f a + g a)).sum = (l.map f).sum + (l.map g).sum := by
  induction l with
  | nil => simp
  | cons a t ih => simp [ih]; omega

theorem sum_map_ite_count {β} [DecidableEq β] (t : List β) (b : β) :
    (t.map (fun k => if k = b then 1 else 0)).sum = t.count b := by
  induction t with
  | nil => simp
  | cons a t ih =>
      by_cases h : a = b <;> simp [List.count_cons, h, ih] <;> omega

theorem length_filter_eq_count_map {α β} [DecidableEq β] (l : List α) (f : α → β) (k : β) :
    (l.filter (fun a => f a = k)).length = (l.map f).count k := by
  induction l with
  | nil => simp
  | cons a t ih =>
      by_cases h : f a = k
      · simp [List.filter_cons, List.count_cons, h, ih]
      · simp [List.filter_cons, List.count_cons, h, ih, Ne.symm h]

theorem sum_dedup_count {β} [DecidableEq β] (m : List β) :
    (m.dedup.map (fun k => m.count k)).sum = m.length := by
  induction m with
  | nil => simp
  | cons b t ih =>
      by_cases hb : b ∈ t
      · rw [List.dedup_cons_of_mem hb]
        have h1 : (t.dedup.map (fun k => (b :: t).count k)).sum =
            (t.dedup.map (fun k => t.count k + if k = b then 1 else 0)).sum := by
          apply congrArg
          apply List.map_congr_left
          intro k _
          by_cases hkb : k = b <;> simp [List.count_cons, hkb, eq_comm]
        rw [h1, sum_map_add, ih, sum_map_ite_count, List.count_dedup]
        simp [hb]
      · rw [List.dedup_cons_of_not_mem hb]
        have h2 : (t.dedup.map (fun k => (b :: t).count k)) =
            t.dedup.map (fun k => t.count k) := by
          apply List.map_congr_left
          intro k hk
          have hkt : k ∈ t := List.mem_dedup.mp hk
          have : k ≠ b := by rintro rfl; exact hb hkt
          simp [List.count_cons, this]
        simp only [List.map_cons, List.sum_cons, h2, ih]
        have : (b :: t).count b = t.count b + 1 := by simp [List.count_cons]
        rw [this, List.count_eq_zero_of_not_mem hb]
        simp [List.length_cons]
        omega

theorem sum_groupCounts (key : FlightRecord → String) (df : List FlightRecord) :
    ((groupCounts key df).map (fun p => p.2)).sum = df.length := by
  unfold groupCounts
  rw [List.map_map]
  trans ((df.map key).dedup.map (fun k => (df.map key).count k)).sum
  · apply congrArg
    apply List.map_congr_left
    intro k _
    simp only [Function.comp_apply]
    exact length_filter_eq_count_map df key k
  · rw [show df.length = (df.map key).length by simp]
    exact sum_dedup_count _

/-- C8: grouping a non-empty record set by origin airport and summing the
per-airport flight counts (before any top-N truncation) yields the input
record count. -/
theorem grouping_conserves_count (df : List FlightRecord) (h : df ≠ []) :
    ((airportFlightCounts df).map (fun p => p.2)).sum = df.length := by
  unfold airportFlightCounts
  exact sum_groupCounts _ df

theorem grouping_conserves_count_witness :
    wdfAirports ≠ [] ∧
      ((airportFlightCounts wdfAirports).map (fun p => p.2)).sum = wdfAirports.length :=
  ⟨by decide, grouping_conserves_count wdfAirports (by decide)⟩

/-- C7: the period comparator's waterfall data is the distinguished
"insufficient data" signal `none` exactly when both canonical periods hold
zero records (in which case the combined category totals are zero); it
never returns a degenerate zero-total table. -/
theorem waterfall_insufficient_data (df : List FlightRecord) :
    waterfallData df = none ↔
      periodFilter 2018 8 df = [] ∧ periodFilter 2020 1 df = [] := by
  by_cases h18 : periodFilter 2018 8 df = []
  · by_cases h20 : periodFilter 2020 1 df = []
    · simp [waterfallData, h18, h20]
    · have l20 : 0 < (periodFilter 2020 1 df).length := List.length_pos.mpr h20
      simp [waterfallData, h18, h20, periodMetrics, List.isEmpty_iff]
  · have l18 : 0 < (periodFilter 2018 8 df).length := List.length_pos.mpr h18
    by_cases h20 : periodFilter 2020 1 df = []
    · simp [waterfallData, h18, h20, periodMetrics, List.isEmpty_iff]
    · simp [waterfallData, h18, h20, periodMetrics, List.isEmpty_iff]
      omega

/-- C5: a route with zero matching records yields the "no data" signal:
an empty table, sample size 0 and 0 observed weeks. -/
theorem route_rec_no_data (df : List FlightRecord) (origin dest : String)
    (h : routeFilter df origin dest = []) :
    routeRecommendations df origin dest = ([], 0, 0) := by
  simp [routeRecommendations, h]

theorem route_rec_no_data_witness :
    routeFilter wdfNoRoute "JFK" "LAX" = [] ∧
      routeRecommendations wdfNoRoute "JFK" "LAX" = ([], 0, 0) :=
  ⟨by decide, route_rec_no_data _ _ _ (by decide)⟩

/-- C9 counterexample: a record whose departure delay is missing is counted
in neither the "delayed" nor the "on-time/early" category by
`_calculate_period_metrics` (it is not coerced to zero, which would have
made it on-time), so the claimed "exactly one category" fails. -/
theorem missing_delay_coercion_cex :
    (periodMetrics [recNoDep]).1 = 1 ∧ (periodMetrics [recNoDep]).2.1 = 0 ∧
      (periodMetrics [recNoDep]).2.2 = 0 ∧
      (periodMetrics [recNoDep]).2.1 + (periodMetrics [recNoDep]).2.2 ≠
        (periodMetrics [recNoDep]).1 := by decide

/-- C9 corrected: coercion of missing delays to zero happens only in the
delay map (`fillna(0)`, so its partitions treat a missing value exactly as
zero); in the other aggregations missing values are not coerced: a missing
arrival delay counts as NOT on-time and is excluded from the delay mean,
and a missing departure delay is counted in neither the delayed nor the
on-time/early category. -/
theorem missing_delay_semantics :
    (∀ df : List FlightRecord,
      weatherPart df = delayMapPrep (df.filter (fun r => 0 < r.weatherDelay.getD 0))) ∧
    (∀ df : List FlightRecord,
      otherPart df = delayMapPrep (df.filter
        (fun r => 0 < r.arrDelay.getD 0 ∧ r.weatherDelay.getD 0 = 0))) ∧
    (∀ dfp : List FlightRecord,
      (periodMetrics dfp).2.1 + (periodMetrics dfp).2.2 =
        dfp.countP (fun r => r.depDelay.isSome)) ∧
    (∀ r : FlightRecord, r.arrDelay = none → onTimeP r = false) ∧
    (∀ (grp : List FlightRecord) (r : FlightRecord), r.arrDelay = none →
      meanArrDelay (r :: grp) = meanArrDelay grp) := by
  refine ⟨?_, ?_, ?_, ?_, ?_⟩
  · intro df
    unfold weatherPart delayMapPrep
    rw [List.filter_map]
    rfl
  · intro df
    unfold otherPart delayMapPrep
    rw [List.filter_map]
    rfl
  · intro dfp
    induction dfp with
    | nil => simp [periodMetrics]
    | cons r t ih =>
        simp only [periodMetrics, List.countP_cons] at ih ⊢
        rcases hd : r.depDelay with _ | d
        · simp [hd]
          omega
        · by_cases hpos : 0 < d
          · have : ¬ d ≤ 0 := by omega
            simp [hd, hpos, this]
            omega
          · have : d ≤ 0 := by omega
            simp [hd, hpos, this]
            omega
  · intro r h
    simp [onTimeP, h]
  · intro grp r h
    simp [meanArrDelay, presentArrDelays, List.filterMap_cons, h]

theorem missing_delay_semantics_witness :
    recNoDep.arrDelay = some 0 ∧ onTimeP recNoDep = true ∧
      (periodMetrics [recNoDep]).2.1 + (periodMetrics [recNoDep]).2.2 =
        List.countP (fun r => r.depDelay.isSome) [recNoDep] :=
  ⟨by decide, by decide, missing_delay_semantics.2.2.1 [recNoDep]⟩

/-- C10: a route with at least one matching record always produces at least
one recommendation row and a positive sample size; the degenerate
"every airline has too few flights" outcome is unreachable. -/
theorem route_rec_nonempty (df : List FlightRecord) (origin dest : String)
    (h : routeFilter df origin dest ≠ []) :
    (routeRecommendations df origin dest).1 ≠ [] ∧
      0 < (routeRecommendations df origin dest).2.1 := by
  have hEmpty : (routeFilter df origin dest).isEmpty = false := by
    simp [List.isEmpty_iff, h]
  have hk : airlineKeys (routeFilter df origin dest) ≠ [] := by
    simp only [airlineKeys, ne_eq, List.dedup_eq_nil, List.map_eq_nil_iff]
    exact h
  constructor
  · simp only [routeRecommendations, hEmpty, Bool.false_eq_true, if_false,
      ne_eq, List.map_eq_nil_iff]
    intro hcon
    have h1 : ((rankRows ((airlineKeys (routeFilter df origin dest)).map
        (statsOf (routeFilter df origin dest)))).take 3).length = 0 := by
      rw [hcon]; rfl
    rw [List.length_take] at h1
    rw [rankRows, List.length_insertionSort, List.length_map] at h1
    have h2 : 0 < (airlineKeys (routeFilter df origin dest)).length :=
      List.length_pos.mpr hk
    omega
  · simp only [routeRecommendations, hEmpty, Bool.false_eq_true, if_false]
    exact List.length_pos.mpr h

theorem route_rec_nonempty_witness :
    routeFilter wdfOneFlight "JFK" "LAX" ≠ [] ∧
      ((routeRecommendations wdfOneFlight "JFK" "LAX").1 ≠ [] ∧
        0 < (routeRecommendations wdfOneFlight "JFK" "LAX").2.1) :=
  ⟨by decide, route_rec_nonempty wdfOneFlight "JFK" "LAX" (by decide)⟩

theorem floor_le_roundHalfEven (q : Rat) : ⌊q⌋ ≤ roundHalfEven q := by
  unfold roundHalfEven
  split_ifs <;> omega

theorem roundHalfEven_le_succ (q : Rat) : roundHalfEven q ≤ ⌊q⌋ + 1 := by
  unfold roundHalfEven
  split_ifs <;> omega

theorem roundHalfEven_mono {a b : Rat} (h : a ≤ b) :
    roundHalfEven a ≤ roundHalfEven b := by
  have hf : ⌊a⌋ ≤ ⌊b⌋ := Int.floor_mono h
  rcases lt_or_eq_of_le hf with hlt | heq
  · have h1 := roundHalfEven_le_succ a
    have h2 := floor_le_roundHalfEven b
    omega
  · have hfr : a - (⌊a⌋ : Rat) ≤ b - (⌊b⌋ : Rat) := by
      rw [← heq]
      linarith
    unfold roundHalfEven
    rw [heq] at hfr ⊢
    split_ifs <;> first | omega | linarith

theorem round1_mono {a b : Rat} (h : a ≤ b) : round1 a ≤ round1 b := by
  unfold round1
  have h1 := roundHalfEven_mono (show a * 10 ≤ b * 10 by linarith)
  have h2 : ((roundHalfEven (a * 10) : Int) : Rat) ≤ ((roundHalfEven (b * 10) : Int) : Rat) := by
    exact_mod_cast h1
  linarith

theorem recBefore_total (x y : AirlineStats) :
    recBefore x y = true ∨ recBefore y x = true := by
  rcases hx : x.avgArrDelay with _ | a <;> rcases hy : y.avgArrDelay with _ | b <;>
    simp [recBefore, hx, hy]
  · exact le_total _ _
  · rcases lt_trichotomy a b with h | h | h
    · exact Or.inl (Or.inl h)
    · rcases le_total y.onTimeRate x.onTimeRate with hr | hr
      · exact Or.inl (Or.inr ⟨h, hr⟩)
      · exact Or.inr (Or.inr ⟨h.symm, hr⟩)
    · exact Or.inr (Or.inl h)

theorem recBefore_trans {x y z : AirlineStats} (h1 : recBefore x y = true)
    (h2 : recBefore y z = true) : recBefore x z = true := by
  rcases hx : x.avgArrDelay with _ | a <;> rcases hy : y.avgArrDelay with _ | b <;>
    rcases hz : z.avgArrDelay with _ | c <;>
      simp [recBefore, hx, hy, hz] at h1 h2 ⊢
  · exact le_trans h2 h1
  · rcases h1 with h1 | ⟨he1, hr1⟩ <;> rcases h2 with h2 | ⟨he2, hr2⟩
    · exact Or.inl (lt_trans h1 h2)
    · exact Or.inl (he2 ▸ h1)
    · exact Or.inl (he1 ▸ h2)
    · exact Or.inr ⟨he1.trans he2, le_trans hr2 hr1⟩

theorem recBefore_avgLE {x y : AirlineStats} (h : recBefore x y = true) :
    avgLE x.avgArrDelay y.avgArrDelay := by
  rcases hx : x.avgArrDelay with _ | a <;> rcases hy : y.avgArrDelay with _ | b <;>
    simp [recBefore, avgLE, hx, hy] at h ⊢
  rcases h with h | ⟨he, -⟩
  · exact le_of_lt h
  · exact le_of_eq he

theorem rankRows_sorted (rows : List AirlineStats) :
    List.Pairwise (fun x y => recBefore x y = true) (rankRows rows) := by
  unfold rankRows
  haveI : IsTotal AirlineStats (fun x y => recBefore x y = true) :=
    ⟨recBefore_total⟩
  haveI : IsTrans AirlineStats (fun x y => recBefore x y = true) :=
    ⟨fun _ _ _ => recBefore_trans⟩
  exact List.sorted_insertionSort _ rows

/-- C4: the recommendation table never has more than 3 rows, its rows are
ordered by mean arrival delay ascending (missing means last), and adjacent
rows with equal mean arrival delay have non-increasing on-time
percentage. -/
theorem route_rec_ranking (df : List FlightRecord) (origin dest : String) :
    (routeRecommendations df origin dest).1.length ≤ 3 ∧
      List.Pairwise (fun x y : RecRow => avgLE x.avgArrDelay y.avgArrDelay)
        (routeRecommendations df origin dest).1 ∧
      List.Chain' (fun x y : RecRow => x.avgArrDelay = y.avgArrDelay →
        y.onTimePct ≤ x.onTimePct) (routeRecommendations df origin dest).1 := by
  by_cases hE : (routeFilter df origin dest).isEmpty
  · simp [routeRecommendations, hE]
  · have hres : (routeRecommendations df origin dest).1 =
        ((rankRows ((airlineKeys (routeFilter df origin dest)).map
          (statsOf (routeFilter df origin dest)))).take 3).map displayRow := by
      simp [routeRecommendations, hE]
    set R := routeFilter df origin dest with hR
    set rows := (airlineKeys R).map (statsOf R) with hrows
    have hsor := rankRows_sorted rows
    have htake : List.Pairwise (fun x y => recBefore x y = true)
        ((rankRows rows).take 3) :=
      List.Pairwise.sublist (List.take_sublist 3 (rankRows rows)) hsor
    have hinv : ∀ s ∈ (rankRows rows).take 3,
        s.onTimePct = round1 (s.onTimeRate * 100) := by
      intro s hs
      have h1 : s ∈ rankRows rows := List.mem_of_mem_take hs
      have h2 : s ∈ rows := by
        unfold rankRows at h1
        exact (List.mem_insertionSort _).mp h1
      rcases List.mem_map.mp h2 with ⟨k, _, rfl⟩
      rfl
    refine ⟨?_, ?_, ?_⟩
    · rw [hres, List.length_map, List.length_take]
      omega
    · rw [hres]
      rw [List.pairwise_map]
      exact htake.imp (fun h => recBefore_avgLE h)
    · rw [hres]
      apply List.Pairwise.chain'
      rw [List.pairwise_map]
      apply List.Pairwise.imp_of_mem ?_ htake
      intro x y hxm hym hr
      intro heq
      have hx' := hinv x hxm
      have hy' := hinv y hym
      rcases hax : x.avgArrDelay with _ | a <;> rcases hay : y.avgArrDelay with _ | b <;>
        simp [recBefore, hax, hay, displayRow] at hr heq ⊢
      · rw [hx', hy']
        exact round1_mono (by linarith [hr])
      · rcases hr with hlt | ⟨he, hrate⟩
        · rw [heq] at hlt
          exact absurd hlt (lt_irrefl b)
        · rw [hx', hy']
          exact round1_mono (by linarith [hrate])

/-- C6: on the three-flight JFK to LAX scenario the engine ranks Airline A
first with average arrival delay -4.0, on-time percentage 100.0 and 2.0
flights per week, Airline B second, with sample size 3 and 1 observed
week. -/
theorem route_rec_scenario :
    routeRecommendations scenarioDf "JFK" "LAX" =
      ([{ airline := "Airline A", flightsPerWeek := 2, onTimePct := 100,
          avgArrDelay := some (-4) },
        { airline := "Airline B", flightsPerWeek := 1, onTimePct := 0,
          avgArrDelay := some 10 }], 3, 1) := by
  have hroute : routeFilter scenarioDf "JFK" "LAX" = scenarioDf := by decide
  have hkeys : airlineKeys scenarioDf = [(1, "Airline A"), (2, "Airline B")] := by
    decide
  have hweeks : weeksObservedOf scenarioDf = 1 := by decide
  have hsA : statsOf scenarioDf (1, "Airline A") =
      { airlineId := 1, airlineName := "Airline A", flights := 2,
        avgArrDelay := some (-4), onTimeRate := 1, weeksWithFlights := 1,
        flightsPerWeek := 2, onTimePct := 100 } := by
    have hg : scenarioDf.filter
        (fun r => r.airlineId = 1 ∧ r.airlineName = "Airline A") =
        [mkRec 2018 8 6 "JFK" "LAX" 1 "Airline A" (some 0) (some (-5)) none,
         mkRec 2018 8 6 "JFK" "LAX" 1 "Airline A" (some 0) (some (-3)) none] := by
      decide
    have hw : (((scenarioDf.filter (fun r => r.airlineId = 1)).map
        weekBucket).dedup).length = 1 := by decide
    simp only [statsOf, hg, hw]
    simp [meanArrDelay, presentArrDelays, onTimeP, mkRec, round1, roundHalfEven]
    norm_num
  have hsB : statsOf scenarioDf (2, "Airline B") =
      { airlineId := 2, airlineName := "Airline B", flights := 1,
        avgArrDelay := some 10, onTimeRate := 0, weeksWithFlights := 1,
        flightsPerWeek := 1, onTimePct := 0 } := by
    have hg : scenarioDf.filter
        (fun r => r.airlineId = 2 ∧ r.airlineName = "Airline B") =
        [mkRec 2018 8 6 "JFK" "LAX" 2 "Airline B" (some 0) (some 10) none] := by
      decide
    have hw : (((scenarioDf.filter (fun r => r.airlineId = 2)).map
        weekBucket).dedup).length = 1 := by decide
    simp only [statsOf, hg, hw]
    simp [meanArrDelay, presentArrDelays, onTimeP, mkRec, round1, roundHalfEven]
  have hEmpty : scenarioDf.isEmpty = false := by decide
  simp only [routeRecommendations, hroute, hEmpty, Bool.false_eq_true, if_false,
    hkeys, hweeks, List.map_cons, List.map_nil, hsA, hsB]
  simp only [rankRows, List.insertionSort, List.orderedInsert]
  norm_num [recBefore]
  simp [displayRow, List.take, Prod.ext_iff]
  decide

theorem label18_ne_label20 (x y : String) : "2018: " ++ x ≠ "2020: " ++ y := by
  intro h
  have hd : ("2018: " ++ x).data = ("2020: " ++ y).data := by rw [h]
  simp [String.data_append] at hd

theorem prependInj (p : String) {x y : String} (h : p ++ x = p ++ y) : x = y := by
  have hd : (p ++ x).data = (p ++ y).data := by rw [h]
  simp only [String.data_append] at hd
  have := List.append_cancel_left hd
  cases x
  cases y
  simp_all

theorem indexOfLast_inj {l : List String} (hnd : l.Nodup) {a b : String}
    (ha : a ∈ l) (hb : b ∈ l) (h : indexOfLast l a = indexOfLast l b) : a = b := by
  unfold indexOfLast at h
  have ha' : a ∈ l.reverse := List.mem_reverse.mpr ha
  have hb' : b ∈ l.reverse := List.mem_reverse.mpr hb
  have hal : l.reverse.indexOf a < l.reverse.length := List.indexOf_lt_length.mpr ha'
  have hbl : l.reverse.indexOf b < l.reverse.length := List.indexOf_lt_length.mpr hb'
  rw [List.length_reverse] at hal hbl
  have heq : l.reverse.indexOf a = l.reverse.indexOf b := by omega
  exact (List.indexOf_inj ha' hb').mp heq

theorem flatMap_filter_single {α β} {A : α} (f : α → List β) (p : β → Bool) :
    ∀ l : List α, l.Nodup → A ∈ l →
      (∀ x ∈ f A, p x = true) →
      (∀ a ∈ l, a ≠ A → ∀ x ∈ f a, p x = false) →
      (l.flatMap f).filter p = f A := by
  intro l
  induction l with
  | nil => intro _ hA; cases hA
  | cons b t ih =>
      intro hnd hA hkeep hdrop
      rw [List.flatMap_cons, List.filter_append]
      by_cases hbA : b = A
      · subst hbA
        have htA : b ∉ t := (List.nodup_cons.mp hnd).1
        have h1 : (f b).filter p = f b := List.filter_eq_self.mpr hkeep
        have h2 : (t.flatMap f).filter p = [] := by
          rw [List.filter_eq_nil_iff]
          intro x hx
          rcases List.mem_flatMap.mp hx with ⟨a, hat, hxa⟩
          have hab : a ≠ b := by rintro rfl; exact htA hat
          simp [hdrop a (List.mem_cons_of_mem _ hat) hab x hxa]
        rw [h1, h2, List.append_nil]
      · have h1 : (f b).filter p = [] := by
          rw [List.filter_eq_nil_iff]
          intro x hx
          simp [hdrop b (List.mem_cons_self b t) hbA x hx]
        have hA' : A ∈ t := by
          rcases List.mem_cons.mp hA with h | h
          · exact absurd h.symm hbA
          · exact h
        rw [h1, List.nil_append]
        exact ih (List.nodup_cons.mp hnd).2 hA' hkeep
          (fun a hat => hdrop a (List.mem_cons_of_mem _ hat))

theorem map_filter_single {α β} {A : α} (g : α → β) (p : β → Bool)
    (l : List α) (hnd : l.Nodup) (hA : A ∈ l)
    (hkeep : p (g A) = true)
    (hdrop : ∀ a ∈ l, a ≠ A → p (g a) = false) :
    (l.map g).filter p = [g A] := by
  rw [List.map_eq_flatMap]
  exact flatMap_filter_single (fun a => [g a]) p l hnd hA
    (by intro x hx; rcases List.mem_singleton.mp hx with rfl; exact hkeep)
    (by intro a ha hne x hx; rcases List.mem_singleton.mp hx with rfl; exact hdrop a ha hne)

theorem summarize_names_structure (dfp : List FlightRecord) :
    (summarizePeriod dfp).map (fun p => p.1) =
      ((sortByCountDesc (groupCounts (fun r => r.airlineName) dfp)).take 10).map
        (fun p => p.1) ++ ["Others"] := by
  simp [summarizePeriod]

theorem groupCounts_names (key : FlightRecord → String) (df : List FlightRecord) :
    (groupCounts key df).map (fun p => p.1) = (df.map key).dedup := by
  unfold groupCounts
  rw [List.map_map]
  have hc : ((fun p : String × Nat => p.1) ∘
      fun k => (k, (df.filter (fun r => key r = k)).length)) = id := by
    funext k
    rfl
  rw [hc, List.map_id]

theorem mem_take10_names {dfp : List FlightRecord} {x : String}
    (hx : x ∈ ((sortByCountDesc (groupCounts (fun r => r.airlineName) dfp)).take 10).map
      (fun p => p.1)) :
    x ∈ dfp.map (fun r => r.airlineName) := by
  rcases List.mem_map.mp hx with ⟨pr, hpr, rfl⟩
  have h1 : pr ∈ sortByCountDesc (groupCounts (fun r => r.airlineName) dfp) :=
    List.mem_of_mem_take hpr
  have h2 : pr ∈ groupCounts (fun r => r.airlineName) dfp := by
    unfold sortByCountDesc at h1
    exact (List.mem_insertionSort _).mp h1
  have h3 : pr.1 ∈ (groupCounts (fun r => r.airlineName) dfp).map (fun p => p.1) :=
    List.mem_map.mpr ⟨pr, h2, rfl⟩
  rw [groupCounts_names] at h3
  exact List.mem_dedup.mp h3

theorem summarize_names_nodup (dfp : List FlightRecord)
    (hO : ∀ r ∈ dfp, r.airlineName ≠ "Others") :
    ((summarizePeriod dfp).map (fun p => p.1)).Nodup := by
  rw [summarize_names_structure]
  apply List.Nodup.append
  · have hperm : List.Perm (sortByCountDesc (groupCounts (fun r => r.airlineName) dfp))
        (groupCounts (fun r => r.airlineName) dfp) := List.perm_insertionSort _ _
    have hgn : ((groupCounts (fun r => r.airlineName) dfp).map (fun p => p.1)).Nodup := by
      rw [groupCounts_names]
      exact List.nodup_dedup _
    have hsn : ((sortByCountDesc (groupCounts (fun r => r.airlineName) dfp)).map
        (fun p => p.1)).Nodup := ((hperm.map _).nodup_iff).mpr hgn
    rw [List.map_take]
    exact (List.take_sublist _ _).nodup hsn
  · simp
  · intro x hx hx2
    have hxo : x = "Others" := by simpa using hx2
    subst hxo
    rcases List.mem_map.mp (mem_take10_names hx) with ⟨r, hr, hrx⟩
    exact hO r hr hrx

theorem sankeyD18_names_nodup (df : List FlightRecord)
    (hO : ∀ r ∈ df, r.airlineName ≠ "Others") :
    ((sankeyD18 df).map (fun p => p.1)).Nodup :=
  summarize_names_nodup _ (fun r hr => hO r (List.mem_of_mem_filter hr))

theorem sankeyD20_names_nodup (df : List FlightRecord)
    (hO : ∀ r ∈ df, r.airlineName ≠ "Others") :
    ((sankeyD20 df).map (fun p => p.1)).Nodup :=
  summarize_names_nodup _ (fun r hr => hO r (List.mem_of_mem_filter hr))

theorem sankeyLabels_nodup (df : List FlightRecord)
    (hO : ∀ r ∈ df, r.airlineName ≠ "Others") : (sankeyLabels df).Nodup := by
  unfold sankeyLabels
  apply List.Nodup.append
  · rw [show (sankeyD18 df).map (fun p => "2018: " ++ p.1) =
        ((sankeyD18 df).map (fun p => p.1)).map (fun n => "2018: " ++ n) by
      rw [List.map_map]
      exact List.map_congr_left fun a _ => rfl]
    exact (sankeyD18_names_nodup df hO).map (fun x y h => prependInj _ h)
  · rw [show (sankeyD20 df).map (fun p => "2020: " ++ p.1) =
        ((sankeyD20 df).map (fun p => p.1)).map (fun n => "2020: " ++ n) by
      rw [List.map_map]
      exact List.map_congr_left fun a _ => rfl]
    exact (sankeyD20_names_nodup df hO).map (fun x y h => prependInj _ h)
  · intro L hL1 hL2
    rcases List.mem_map.mp hL1 with ⟨p1, _, h1⟩
    rcases List.mem_map.mp hL2 with ⟨p2, _, h2⟩
    exact label18_ne_label20 p1.1 p2.1 (h1.trans h2.symm)

theorem others_mem_summarize_names (dfp : List FlightRecord) :
    "Others" ∈ (summarizePeriod dfp).map (fun p => p.1) := by
  rw [summarize_names_structure]
  simp

theorem label18_others_mem (df : List FlightRecord) :
    "2018: Others" ∈ sankeyLabels df := by
  unfold sankeyLabels
  apply List.mem_append_left
  rcases List.mem_map.mp (others_mem_summarize_names (periodFilter 2018 8 df))
    with ⟨pr, hpr, hfst⟩
  refine List.mem_map.mpr ⟨pr, hpr, ?_⟩
  rw [hfst]
  decide

theorem label20_others_mem (df : List FlightRecord) :
    "2020: Others" ∈ sankeyLabels df := by
  unfold sankeyLabels
  apply List.mem_append_right
  rcases List.mem_map.mp (others_mem_summarize_names (periodFilter 2020 1 df))
    with ⟨pr, hpr, hfst⟩
  refine List.mem_map.mpr ⟨pr, hpr, ?_⟩
  rw [hfst]
  decide

theorem topAirlines_sub_names {d : List (String × Nat)} {x : String}
    (hx : x ∈ topAirlines d) : x ∈ d.map (fun p => p.1) :=
  List.mem_of_mem_filter hx

theorem topAirlines_ne_others {d : List (String × Nat)} {x : String}
    (hx : x ∈ topAirlines d) : x ≠ "Others" := by
  have := (List.mem_filter.mp hx).2
  simpa using this

theorem label18_top_mem {df : List FlightRecord} {a : String}
    (ha : a ∈ topAirlines (sankeyD18 df)) : ("2018: " ++ a) ∈ sankeyLabels df := by
  unfold sankeyLabels
  apply List.mem_append_left
  rcases List.mem_map.mp (topAirlines_sub_names ha) with ⟨pr, hpr, hfst⟩
  exact List.mem_map.mpr ⟨pr, hpr, by rw [hfst]⟩

theorem label20_top_mem {df : List FlightRecord} {a : String}
    (ha : a ∈ topAirlines (sankeyD20 df)) : ("2020: " ++ a) ∈ sankeyLabels df := by
  unfold sankeyLabels
  apply List.mem_append_right
  rcases List.mem_map.mp (topAirlines_sub_names ha) with ⟨pr, hpr, hfst⟩
  exact List.mem_map.mpr ⟨pr, hpr, by rw [hfst]⟩

theorem topAirlines18_nodup (df : List FlightRecord)
    (hO : ∀ r ∈ df, r.airlineName ≠ "Others") :
    (topAirlines (sankeyD18 df)).Nodup :=
  (sankeyD18_names_nodup df hO).filter _

theorem sankeyNodeId_inj (df : List FlightRecord)
    (hO : ∀ r ∈ df, r.airlineName ≠ "Others") {L1 L2 : String}
    (h1 : L1 ∈ sankeyLabels df) (h2 : L2 ∈ sankeyLabels df)
    (h : sankeyNodeId df L1 = sankeyNodeId df L2) : L1 = L2 :=
  indexOfLast_inj (sankeyLabels_nodup df hO) h1 h2 h

theorem label18_ne_of_ne {a b : String} (h : a ≠ b) :
    "2018: " ++ a ≠ "2018: " ++ b :=
  fun he => h (prependInj _ he)

theorem label18_others_expand : "2018: Others" = "2018: " ++ "Others" := by decide

theorem label20_others_expand : "2020: Others" = "2020: " ++ "Others" := by decide

theorem label18_ne_others {a : String} (h : a ≠ "Others") :
    "2018: " ++ a ≠ "2018: Others" := by
  rw [label18_others_expand]
  exact label18_ne_of_ne h

theorem nid_ne_of_label_ne (df : List FlightRecord)
    (hO : ∀ r ∈ df, r.airlineName ≠ "Others") {L1 L2 : String}
    (h1 : L1 ∈ sankeyLabels df) (h2 : L2 ∈ sankeyLabels df) (h : L1 ≠ L2) :
    sankeyNodeId df L1 ≠ sankeyNodeId df L2 :=
  fun he => h (sankeyNodeId_inj df hO h1 h2 he)

theorem mem_sharedList {df : List FlightRecord} {a : String}
    (ha : a ∈ (topAirlines (sankeyD18 df)).filter
      (fun x => x ∈ topAirlines (sankeyD20 df))) :
    a ∈ topAirlines (sankeyD18 df) ∧ a ∈ topAirlines (sankeyD20 df) := by
  have h := List.mem_filter.mp ha
  exact ⟨h.1, by simpa using h.2⟩

theorem mem_droppedList {df : List FlightRecord} {b : String}
    (hb : b ∈ (topAirlines (sankeyD18 df)).filter
      (fun x => x ∉ topAirlines (sankeyD20 df))) :
    b ∈ topAirlines (sankeyD18 df) ∧ b ∉ topAirlines (sankeyD20 df) := by
  have h := List.mem_filter.mp hb
  exact ⟨h.1, by simpa using h.2⟩

theorem sharedLinks_filter_at (df : List FlightRecord)
    (hO : ∀ r ∈ df, r.airlineName ≠ "Others") {a : String}
    (h18 : a ∈ topAirlines (sankeyD18 df)) (h20 : a ∈ topAirlines (sankeyD20 df)) :
    (sankeySharedLinks df).filter
        (fun l => l.source = sankeyNodeId df ("2018: " ++ a)) =
      { source := sankeyNodeId df ("2018: " ++ a)
        target := sankeyNodeId df ("2020: " ++ a)
        value := (getCount (sankeyD20 df) a : Int) } ::
      (if getCount (sankeyD20 df) a < getCount (sankeyD18 df) a then
        [{ source := sankeyNodeId df ("2018: " ++ a)
           target := sankeyNodeId df "2020: Others"
           value := (getCount (sankeyD18 df) a : Int) -
             (getCount (sankeyD20 df) a : Int) }]
      else []) := by
  unfold sankeySharedLinks
  apply flatMap_filter_single
  · exact (topAirlines18_nodup df hO).filter _
  · exact List.mem_filter.mpr ⟨h18, by simpa using h20⟩
  · intro x hx
    rcases List.mem_cons.mp hx with rfl | hx2
    · simp
    · by_cases hc : getCount (sankeyD20 df) a < getCount (sankeyD18 df) a
      · rw [if_pos hc] at hx2
        rcases List.mem_singleton.mp hx2 with rfl
        simp
      · rw [if_neg hc] at hx2
        cases hx2
  · intro b hb hneq x hx
    rcases mem_sharedList hb with ⟨hb18, _⟩
    have hne : sankeyNodeId df ("2018: " ++ b) ≠ sankeyNodeId df ("2018: " ++ a) :=
      nid_ne_of_label_ne df hO (label18_top_mem hb18) (label18_top_mem h18)
        (label18_ne_of_ne hneq)
    rcases List.mem_cons.mp hx with rfl | hx2
    · simp [hne]
    · by_cases hc : getCount (sankeyD20 df) b < getCount (sankeyD18 df) b
      · rw [if_pos hc] at hx2
        rcases List.mem_singleton.mp hx2 with rfl
        simp [hne]
      · rw [if_neg hc] at hx2
        cases hx2

theorem sharedLinks_filter_nil (df : List FlightRecord)
    (hO : ∀ r ∈ df, r.airlineName ≠ "Others") {s : Nat}
    (hs : ∀ a, a ∈ topAirlines (sankeyD18 df) → a ∈ topAirlines (sankeyD20 df) →
      sankeyNodeId df ("2018: " ++ a) ≠ s) :
    (sankeySharedLinks df).filter (fun l => l.source = s) = [] := by
  rw [List.filter_eq_nil_iff]
  intro x hx
  rcases List.mem_flatMap.mp hx with ⟨a, ha, hxa⟩
  rcases mem_sharedList ha with ⟨ha18, ha20⟩
  have hne := hs a ha18 ha20
  rcases List.mem_cons.mp hxa with rfl | hx2
  · simp [hne]
  · by_cases hc : getCount (sankeyD20 df) a < getCount (sankeyD18 df) a
    · rw [if_pos hc] at hx2
      rcases List.mem_singleton.mp hx2 with rfl
      simp [hne]
    · rw [if_neg hc] at hx2
      cases hx2

theorem newLinks_filter_nil (df : List FlightRecord) {s : Nat}
    (hs : sankeyNodeId df "2018: Others" ≠ s) :
    (sankeyNewLinks df).filter (fun l => l.source = s) = [] := by
  rw [List.filter_eq_nil_iff]
  intro x hx
  rcases List.mem_map.mp hx with ⟨b, _, rfl⟩
  simp [hs]

theorem newLinks_filter_self (df : List FlightRecord) :
    (sankeyNewLinks df).filter
        (fun l => l.source = sankeyNodeId df "2018: Others") =
      sankeyNewLinks df := by
  rw [List.filter_eq_self]
  intro x hx
  rcases List.mem_map.mp hx with ⟨b, _, rfl⟩
  simp

theorem droppedLinks_filter_at (df : List FlightRecord)
    (hO : ∀ r ∈ df, r.airlineName ≠ "Others") {b : String}
    (h18 : b ∈ topAirlines (sankeyD18 df)) (h20 : b ∉ topAirlines (sankeyD20 df)) :
    (sankeyDroppedLinks df).filter
        (fun l => l.source = sankeyNodeId df ("2018: " ++ b)) =
      [{ source := sankeyNodeId df ("2018: " ++ b)
         target := sankeyNodeId df "2020: Others"
         value := (getCount (sankeyD18 df) b : Int) }] := by
  unfold sankeyDroppedLinks
  apply map_filter_single
  · exact (topAirlines18_nodup df hO).filter _
  · exact List.mem_filter.mpr ⟨h18, by simpa using h20⟩
  · simp
  · intro c hc hneq
    rcases mem_droppedList hc with ⟨hc18, _⟩
    have hne : sankeyNodeId df ("2018: " ++ c) ≠ sankeyNodeId df ("2018: " ++ b) :=
      nid_ne_of_label_ne df hO (label18_top_mem hc18) (label18_top_mem h18)
        (label18_ne_of_ne hneq)
    simp [hne]

theorem droppedLinks_filter_nil (df : List FlightRecord)
    (hO : ∀ r ∈ df, r.airlineName ≠ "Others") {s : Nat}
    (hs : ∀ b, b ∈ topAirlines (sankeyD18 df) → b ∉ topAirlines (sankeyD20 df) →
      sankeyNodeId df ("2018: " ++ b) ≠ s) :
    (sankeyDroppedLinks df).filter (fun l => l.source = s) = [] := by
  rw [List.filter_eq_nil_iff]
  intro x hx
  rcases List.mem_map.mp hx with ⟨b, hb, rfl⟩
  rcases mem_droppedList hb with ⟨hb18, hb20⟩
  simp [hs b hb18 hb20]

theorem sankeyAcc_filter_at_others (df : List FlightRecord)
    (hO : ∀ r ∈ df, r.airlineName ≠ "Others") :
    (sankeyAcc df).filter (fun l => l.source = sankeyNodeId df "2018: Others") =
      sankeyNewLinks df := by
  unfold sankeyAcc
  rw [List.filter_append, List.filter_append]
  rw [sharedLinks_filter_nil df hO, newLinks_filter_self df,
    droppedLinks_filter_nil df hO]
  · simp
  · intro b hb18 _
    exact nid_ne_of_label_ne df hO (label18_top_mem hb18) (label18_others_mem df)
      (label18_ne_others (topAirlines_ne_others hb18))
  · intro a ha18 _
    exact nid_ne_of_label_ne df hO (label18_top_mem ha18) (label18_others_mem df)
      (label18_ne_others (topAirlines_ne_others ha18))

theorem sankeyLinks_filter_at_shared (df : List FlightRecord)
    (hO : ∀ r ∈ df, r.airlineName ≠ "Others") {a : String}
    (h18 : a ∈ topAirlines (sankeyD18 df)) (h20 : a ∈ topAirlines (sankeyD20 df)) :
    (sankeyLinks df).filter
        (fun l => l.source = sankeyNodeId df ("2018: " ++ a)) =
      { source := sankeyNodeId df ("2018: " ++ a)
        target := sankeyNodeId df ("2020: " ++ a)
        value := (getCount (sankeyD20 df) a : Int) } ::
      (if getCount (sankeyD20 df) a < getCount (sankeyD18 df) a then
        [{ source := sankeyNodeId df ("2018: " ++ a)
           target := sankeyNodeId df "2020: Others"
           value := (getCount (sankeyD18 df) a : Int) -
             (getCount (sankeyD20 df) a : Int) }]
      else []) := by
  have hOthersNe : sankeyNodeId df "2018: Others" ≠
      sankeyNodeId df ("2018: " ++ a) :=
    nid_ne_of_label_ne df hO (label18_others_mem df) (label18_top_mem h18)
      (label18_ne_others (topAirlines_ne_others h18)).symm
  unfold sankeyLinks sankeyAcc
  rw [List.filter_append, List.filter_append, List.filter_append]
  rw [sharedLinks_filter_at df hO h18 h20, newLinks_filter_nil df hOthersNe,
    droppedLinks_filter_nil df hO]
  · simp [hOthersNe]
  · intro b _ hb20
    have hba : b ≠ a := by rintro rfl; exact hb20 h20
    intro he
    exact hba (prependInj "2018: " (sankeyNodeId_inj df hO (label18_top_mem
      (by assumption)) (label18_top_mem h18) he))

/-- C1 counterexample: on `cexDf1` the airline "Alpha Air" is in both
periods' top-10 with period-1 count 1 and period-2 count 2, yet the total
outgoing value from its period-1 node is 2, not its period-1 count: the
continuity edge carries the period-2 count, not the claimed minimum of the
two counts. -/
theorem flow_continuity_cex :
    "Alpha Air" ∈ topAirlines (sankeyD18 cexDf1) ∧
      "Alpha Air" ∈ topAirlines (sankeyD20 cexDf1) ∧
      getCount (sankeyD18 cexDf1) "Alpha Air" = 1 ∧
      getCount (sankeyD20 cexDf1) "Alpha Air" = 2 ∧
      outgoingTotal (sankeyLinks cexDf1) (sankeyNodeId cexDf1 "2018: Alpha Air") = 2 ∧
      outgoingTotal (sankeyLinks cexDf1) (sankeyNodeId cexDf1 "2018: Alpha Air") ≠
        (getCount (sankeyD18 cexDf1) "Alpha Air" : Int) := by
  decide

/-- C1 corrected: for every airline in both periods' top-10 (no airline
being literally named "Others"), the outgoing edges of its period-1 node
are a continuity edge carrying the period-2 count — not capped at the
smaller of the two counts — plus, exactly when period1_count >
period2_count, an overflow edge into period-2's "Others" carrying the
difference; the outgoing total is therefore max(period1_count,
period2_count), which equals the period-1 count only when period1_count ≥
period2_count. -/
theorem flow_continuity_amended (df : List FlightRecord)
    (hO : ∀ r ∈ df, r.airlineName ≠ "Others") (a : String)
    (h18 : a ∈ topAirlines (sankeyD18 df)) (h20 : a ∈ topAirlines (sankeyD20 df)) :
    (sankeyLinks df).filter
        (fun l => l.source = sankeyNodeId df ("2018: " ++ a)) =
      { source := sankeyNodeId df ("2018: " ++ a)
        target := sankeyNodeId df ("2020: " ++ a)
        value := (getCount (sankeyD20 df) a : Int) } ::
      (if getCount (sankeyD20 df) a < getCount (sankeyD18 df) a then
        [{ source := sankeyNodeId df ("2018: " ++ a)
           target := sankeyNodeId df "2020: Others"
           value := (getCount (sankeyD18 df) a : Int) -
             (getCount (sankeyD20 df) a : Int) }]
      else []) ∧
      outgoingTotal (sankeyLinks df) (sankeyNodeId df ("2018: " ++ a)) =
        max (getCount (sankeyD18 df) a : Int) (getCount (sankeyD20 df) a : Int) := by
  refine ⟨sankeyLinks_filter_at_shared df hO h18 h20, ?_⟩
  unfold outgoingTotal
  rw [sankeyLinks_filter_at_shared df hO h18 h20]
  by_cases hc : getCount (sankeyD20 df) a < getCount (sankeyD18 df) a
  · rw [if_pos hc]
    simp only [List.map_cons, List.map_nil, List.sum_cons, List.sum_nil]
    omega
  · rw [if_neg hc]
    simp only [List.map_cons, List.map_nil, List.sum_cons, List.sum_nil]
    omega

theorem flow_continuity_amended_witness :
    outgoingTotal (sankeyLinks wdfShrink)
        (sankeyNodeId wdfShrink ("2018: " ++ "Gamma Air")) =
      max (getCount (sankeyD18 wdfShrink) "Gamma Air" : Int)
        (getCount (sankeyD20 wdfShrink) "Gamma Air" : Int) :=
  (flow_continuity_amended wdfShrink (by decide) "Gamma Air"
    (by decide) (by decide)).2

/-- C2 counterexample: on `cexDf2` both canonical periods are non-empty,
"Beta Air" has period-1 count 1, yet the total outgoing value from its
period-1 node is 2: flow conservation fails for airlines whose period-2
count exceeds their period-1 count. -/
theorem flow_conservation_cex :
    periodFilter 2018 8 cexDf2 ≠ [] ∧ periodFilter 2020 1 cexDf2 ≠ [] ∧
      getCount (sankeyD18 cexDf2) "Beta Air" = 1 ∧
      outgoingTotal (sankeyLinks cexDf2) (sankeyNodeId cexDf2 "2018: Beta Air") = 2 ∧
      outgoingTotal (sankeyLinks cexDf2) (sankeyNodeId cexDf2 "2018: Beta Air") ≠
        (getCount (sankeyD18 cexDf2) "Beta Air" : Int) := by
  decide

/-- C2 corrected: every edge value in the produced link list is
non-negative (the balancing edge is clamped at zero), and conservation
holds only partially: the outgoing total from the period-1 node of an
airline that fell out of the top-10 equals its period-1 count, while the
period-1 "Others" node's outgoing total is the maximum of the
new-airlines' inflow sum and period-2's observed "Others" count (not its
own period-1 count), and a shared airline's node emits
max(period1_count, period2_count). -/
theorem flow_conservation_amended (df : List FlightRecord)
    (hO : ∀ r ∈ df, r.airlineName ≠ "Others") :
    (∀ l ∈ sankeyLinks df, 0 ≤ l.value) ∧
      (∀ b, b ∈ topAirlines (sankeyD18 df) → b ∉ topAirlines (sankeyD20 df) →
        outgoingTotal (sankeyLinks df) (sankeyNodeId df ("2018: " ++ b)) =
          (getCount (sankeyD18 df) b : Int)) ∧
      outgoingTotal (sankeyLinks df) (sankeyNodeId df "2018: Others") =
        max (((sankeyNewLinks df).map (fun l => l.value)).sum)
          (getCount (sankeyD20 df) "Others" : Int) := by
  refine ⟨?_, ?_, ?_⟩
  · intro l hl
    simp only [sankeyLinks, sankeyAcc, List.mem_append, List.mem_singleton] at hl
    rcases hl with (((h | h) | h) | h)
    · unfold sankeySharedLinks at h
      rcases List.mem_flatMap.mp h with ⟨a, _, hxa⟩
      rcases List.mem_cons.mp hxa with rfl | hx2
      · simp
      · by_cases hc : getCount (sankeyD20 df) a < getCount (sankeyD18 df) a
        · rw [if_pos hc] at hx2
          rcases List.mem_singleton.mp hx2 with rfl
          simp only
          omega
        · rw [if_neg hc] at hx2
          cases hx2
    · unfold sankeyNewLinks at h
      rcases List.mem_map.mp h with ⟨b, _, rfl⟩
      simp
    · unfold sankeyDroppedLinks at h
      rcases List.mem_map.mp h with ⟨b, _, rfl⟩
      simp
    · rw [h]
      exact le_max_right _ 0
  · intro b hb18 hb20
    have hbo : b ≠ "Others" := topAirlines_ne_others hb18
    have hOthersNe : sankeyNodeId df "2018: Others" ≠
        sankeyNodeId df ("2018: " ++ b) :=
      nid_ne_of_label_ne df hO (label18_others_mem df) (label18_top_mem hb18)
        (label18_ne_others hbo).symm
    have hfilter : (sankeyLinks df).filter
        (fun l => l.source = sankeyNodeId df ("2018: " ++ b)) =
        [{ source := sankeyNodeId df ("2018: " ++ b)
           target := sankeyNodeId df "2020: Others"
           value := (getCount (sankeyD18 df) b : Int) }] := by
      unfold sankeyLinks sankeyAcc
      rw [List.filter_append, List.filter_append, List.filter_append]
      rw [sharedLinks_filter_nil df hO, newLinks_filter_nil df hOthersNe,
        droppedLinks_filter_at df hO hb18 hb20]
      · simp [hOthersNe]
      · intro a _ ha20
        have hab : a ≠ b := by rintro rfl; exact hb20 ha20
        intro he
        exact hab (prependInj "2018: " (sankeyNodeId_inj df hO (label18_top_mem
          (by assumption)) (label18_top_mem hb18) he))
    unfold outgoingTotal
    rw [hfilter]
    simp
  · have haccTot : outgoingTotal (sankeyAcc df) (sankeyNodeId df "2018: Others") =
        ((sankeyNewLinks df).map (fun l => l.value)).sum := by
      unfold outgoingTotal
      rw [sankeyAcc_filter_at_others df hO]
    have hfilter : (sankeyLinks df).filter
        (fun l => l.source = sankeyNodeId df "2018: Others") =
        sankeyNewLinks df ++
          [{ source := sankeyNodeId df "2018: Others"
             target := sankeyNodeId df "2020: Others"
             value := max ((getCount (sankeyD20 df) "Others" : Int) -
               outgoingTotal (sankeyAcc df) (sankeyNodeId df "2018: Others")) 0 }] := by
      unfold sankeyLinks
      rw [List.filter_append, sankeyAcc_filter_at_others df hO]
      simp
    unfold outgoingTotal
    rw [hfilter]
    rw [haccTot]
    rw [List.map_append, List.sum_append]
    simp only [List.map_cons, List.map_nil, List.sum_cons, List.sum_nil]
    omega

theorem flow_conservation_amended_witness :
    outgoingTotal (sankeyLinks wdfDrop)
        (sankeyNodeId wdfDrop ("2018: " ++ "Echo Air")) =
      (getCount (sankeyD18 wdfDrop) "Echo Air" : Int) :=
  (flow_conservation_amended wdfDrop (by decide)).2.1 "Echo Air"
    (by decide) (by decide)

/-- C3: in the node layout produced by the renderer's index sort, when
exactly one index carries an "Others" label, every other node appears in
non-increasing order of its total flow, the "Others" node is last
regardless of its flow, and the layout is a permutation of the input
indices. -/
theorem sankey_node_ordering (labels : List String) (totals : Nat → Int)
    (idxs : List Nat) (o : Nat)
    (h : idxs.filter (fun i => strContains (labels.getD i "") "Others") = [o]) :
    (sortIndices labels totals idxs).getLast? = some o ∧
      List.Pairwise (fun i j => totals j ≤ totals i)
        (sortIndices labels totals idxs).dropLast ∧
      List.Perm (sortIndices labels totals idxs) idxs := by
  have hpo : strContains (labels.getD o "") "Others" = true := by
    have homem : o ∈ idxs.filter (fun i => strContains (labels.getD i "") "Others") := by
      rw [h]
      exact List.mem_singleton_self o
    exact (List.mem_filter.mp homem).2
  haveI : IsTotal Nat (fun i j => totals j ≤ totals i) :=
    ⟨fun a b => le_total (totals b) (totals a)⟩
  haveI : IsTrans Nat (fun i j => totals j ≤ totals i) :=
    ⟨fun _ _ _ h1 h2 => le_trans h2 h1⟩
  simp only [sortIndices, h]
  refine ⟨List.getLast?_concat _, ?_, ?_⟩
  · rw [List.dropLast_concat]
    exact List.sorted_insertionSort _ _
  · have hreg : idxs.filter (fun i => decide (i ∉ [o])) =
        idxs.filter (fun i => !(strContains (labels.getD i "") "Others")) := by
      apply List.filter_congr
      intro i hi
      by_cases hio : i = o
      · subst hio
        have hpo2 : strContains (labels[i]?.getD "") "Others" = true := by
          simpa using hpo
        simp [hpo2]
      · have hpi : strContains (labels.getD i "") "Others" = false := by
          by_contra hcon
          have hpi' : strContains (labels.getD i "") "Others" = true := by
            revert hcon
            cases strContains (labels.getD i "") "Others" <;> simp
          have : i ∈ idxs.filter
              (fun j => strContains (labels.getD j "") "Others") :=
            List.mem_filter.mpr ⟨hi, hpi'⟩
          rw [h] at this
          exact hio (List.mem_singleton.mp this)
        have hpi2 : strContains (labels[i]?.getD "") "Others" = false := by
          simpa using hpi
        simp [hio, hpi2]
    have hstep1 : List.Perm (List.insertionSort (fun i j => totals j ≤ totals i)
        (idxs.filter (fun i => decide (i ∉ [o]))) ++ [o])
        (idxs.filter (fun i => decide (i ∉ [o])) ++ [o]) :=
      (List.perm_insertionSort _ _).append_right _
    have heq2 : idxs.filter (fun i => decide (i ∉ [o])) ++ [o] =
        idxs.filter (fun i => !(strContains (labels.getD i "") "Others")) ++
          idxs.filter (fun i => strContains (labels.getD i "") "Others") := by
      rw [hreg, h]
    have hstep2 : List.Perm
        (idxs.filter (fun i => !(strContains (labels.getD i "") "Others")) ++
          idxs.filter (fun i => strContains (labels.getD i "") "Others")) idxs :=
      List.Perm.trans List.perm_append_comm
        (List.filter_append_perm (fun i => strContains (labels.getD i "") "Others") idxs)
    exact hstep1.trans (heq2 ▸ hstep2)

theorem sankey_node_ordering_witness :
    (sortIndices ["2018: Alpha", "2018: Others"]
        (fun i => if i = 0 then (1 : Int) else 5) [0, 1]).getLast? = some 1 :=
  (sankey_node_ordering ["2018: Alpha", "2018: Others"]
    (fun i => if i = 0 then (1 : Int) else 5) [0, 1] 1 (by decide)).1
